import Mathlib

/-!
# Verification of the B3 stock-screener core (`src/rastreador_app.py`)

Shallow embedding of the acquisition/derivation pipeline of the screener:
the per-symbol fetcher `get_yahoo_data_enhanced`, the pure metric functions
(`calcular_rsi`, `calcular_volatilidade`, `calcular_graham_value`), the
quality-score rubric, the sector mapping, the module-level filter block and
the connectivity gate.

Modelling conventions:
* Python floats are modelled by `ℚ` (every Python float is a rational);
  the NaN/±inf values a provider may return are modelled explicitly in
  `RawVal` where the code tests for them (`np.isfinite` in `safe_get`).
  `calcular_graham_value` and the volatility take real square roots, so
  they land in `ℝ`.
* `round(x, n)` (Python) is modelled by `pyRound`; Python rounds
  half-to-even on binary floats while `round : ℚ → ℤ` rounds half up —
  the difference is confined to exact half-way points, which no claim
  touches.
* The behaviour of the Yahoo provider for one ticker is a `YfEnv` value:
  each call the fetcher makes (fast_info, 5-day history, `.info`,
  3-month history) can independently raise (`Except.error`) or return
  data, and `outerExn` models an unclassified exception escaping any of
  the inner `try` blocks (e.g. from `yf.Ticker` itself); since such an
  exception aborts straight to the outermost `except`, firing it up
  front is observationally equivalent for the returned value.
* Stateful Streamlit rendering is out of scope (per the spec); the
  module-level control flow that decides whether the batch runs at all
  (`st.stop()` on a failed connectivity probe, line 511-513) is modelled
  by `appFlow`.
-/

/-! ## String helpers (Python `str.strip` / `str.upper` / `str.replace` / slicing)

All are written over `List Char` so that the kernel can evaluate them on
concrete inputs. Python's `.strip()` removes unicode whitespace at both
ends and `.upper()` uppercases unicode; the tickers involved are ASCII, so
`Char.isWhitespace` / `Char.toUpper` agree with Python on every input that
matters here.
-/

/-- Left trim: drop leading whitespace. -/
def trimLeftChars (cs : List Char) : List Char := cs.dropWhile Char.isWhitespace

/-- Python `s.strip()` on the character list: trim both ends. -/
def pyStripChars (cs : List Char) : List Char :=
  (trimLeftChars (trimLeftChars cs).reverse).reverse

/-- Python `s.upper()` on the character list (ASCII). -/
def pyUpperChars (cs : List Char) : List Char := cs.map Char.toUpper

/-- Python `s.replace(".SA", "")`: remove occurrences of `.SA` left to
right, non-overlapping, in one pass (Python `str.replace` semantics,
specialised to this fixed pattern). -/
def removeSA : List Char → List Char
  | '.' :: 'S' :: 'A' :: rest => removeSA rest
  | c :: rest => c :: removeSA rest
  | [] => []

/-- Python `s[:n]`: the first `n` characters (code points). -/
def strTake (n : Nat) (s : String) : String := String.mk (s.data.take n)

/-- Line 203: `ticker.strip().upper().replace('.SA', '')`. -/
def tickerClean (t : String) : String :=
  String.mk (removeSA (pyUpperChars (pyStripChars t.data)))

/-! ## Python numeric shims -/

/-- Python `round(q, d)`: round to `d` decimal places. -/
def pyRound (d : Nat) (q : ℚ) : ℚ := (round (q * 10 ^ d) : ℤ) / 10 ^ d

/-- Python `int(q)`: truncate toward zero. -/
def pyInt (q : ℚ) : ℤ := if q < 0 then ⌈q⌉ else ⌊q⌋

/-- Python `round(x, 1)` on a real (used for the Graham margin of safety). -/
noncomputable def pyRound1R (x : ℝ) : ℝ := (round (x * 10) : ℤ) / 10

/-- Python `round(x, 2)` on a real (used for the Graham value and the
volatility). -/
noncomputable def pyRound2R (x : ℝ) : ℝ := (round (x * 100) : ℤ) / 100

/-! ## Raw provider values

A value held by the `info` dict for one key. `float(val)` can yield a
non-finite number (also from the sentinel strings `"Infinity"` /
`"-Infinity"`), or raise — both make `safe_get` fall back to its default.
A key that is missing or maps to Python `None` is modelled as `Option.none`
around the `RawVal` (both collapse to the default in `safe_get`, since
every caller passes the default `0.0` and `0.0 * m = 0.0`).
-/
inductive RawVal
  /-- A finite float, i.e. a rational. -/
  | num (q : ℚ)
  /-- `float(val)` succeeded but the result is not finite (inf, -inf, NaN). -/
  | nonfinite
  /-- `float(val)` raised (non-numeric value). -/
  | invalid

/-- The fundamentals record (`acao.info`), field per key the code reads.
`sector` distinguishes a missing key (outer `none`, so `info.get('sector',
'N/A')` yields `'N/A'`) from a key mapped to Python `None` (inner `none`). -/
structure Info where
  dividendYield : Option RawVal
  trailingEps : Option RawVal
  bookValue : Option RawVal
  trailingPE : Option RawVal
  priceToBook : Option RawVal
  returnOnEquity : Option RawVal
  profitMargins : Option RawVal
  grossMargins : Option RawVal
  liquidezCorr : Option RawVal    -- key 'currentRatio'
  debtToEquity : Option RawVal
  averageVolume : Option RawVal
  sector : Option (Option String)

/-- Behaviour of the provider for one fetch (see the module doc). -/
structure YfEnv where
  /-- An unclassified exception escaping the inner handlers, caught by the
  outermost `except Exception as e` (line 392); carries `str(e)`. -/
  outerExn : Option String
  /-- `acao.fast_info.get('last_price')`: may raise (inner `pass`), may be
  absent, may be any float. -/
  fastInfo : Except Unit (Option ℚ)
  /-- Closing prices of `acao.history(period="5d")`; may raise. -/
  hist5d : Except Unit (List ℚ)
  /-- `acao.info`: may raise, may be empty/non-dict (`none`). -/
  infoRes : Except Unit (Option Info)
  /-- Closing prices of `acao.history(period="3mo")`; may raise. -/
  hist3mo : Except Unit (List ℚ)

/-! ## MetricMath -/

/-- Lines 142-160, `calcular_rsi`: relative-strength index over the last
`periodo` price differences. `precos.diff()` puts NaN at position 0, and
the guard `len < periodo + 1` guarantees the final rolling window avoids
it, so the last entry of the rolling means is the plain mean of the last
`periodo` differences. `perdas.replace(0, 0.0001)` substitutes the epsilon
when the loss average is exactly zero. With a positive epsilon the result
is finite, so the final NaN fallback to 50.0 never fires on the modelled
domain. -/
def calcular_rsi (precos : List ℚ) (periodo : Nat) : ℚ :=
  if precos.length < periodo + 1 then 50
  else
    let deltas := (precos.zip precos.tail).map fun p => p.2 - p.1
    let lastw := deltas.drop (deltas.length - periodo)
    let ganhos := ((lastw.map fun d => if 0 < d then d else 0).foldr (· + ·) (0 : ℚ)) / (periodo : ℚ)
    let perdas0 := ((lastw.map fun d => if d < 0 then -d else 0).foldr (· + ·) (0 : ℚ)) / (periodo : ℚ)
    let perdas := if perdas0 = 0 then 1 / 10000 else perdas0
    let rs := ganhos / perdas
    100 - 100 / (1 + rs)

/-- Mean of a list of rationals. -/
def listMean (xs : List ℚ) : ℚ := (xs.foldr (· + ·) 0) / xs.length

/-- Sample variance (ddof = 1, as pandas `std` uses) of a list. -/
def sampleVar (xs : List ℚ) : ℚ :=
  ((xs.map fun x => (x - listMean xs) ^ 2).foldr (· + ·) 0) / (xs.length - 1 : ℚ)

/-- Lines 162-173, `calcular_volatilidade`: percent-change returns, sample
standard deviation over the trailing `janela` returns, times 100. The
returns list has `len - 1` entries, so when it is still shorter than
`janela` the rolling std is NaN and the function returns 0.0 (second
branch). A zero price making `pct_change` blow up yields NaN/inf in
Python, also mapped to 0.0 by the NaN guard; in `ℚ` that division is 0,
and no claim touches that corner. -/
noncomputable def calcular_volatilidade (precos : List ℚ) (janela : Nat) : ℝ :=
  if precos.length < janela then 0
  else
    let retornos := (precos.zip precos.tail).map fun p => (p.2 - p.1) / p.1
    if retornos.length < janela then 0
    else
      let lastw := retornos.drop (retornos.length - janela)
      Real.sqrt (sampleVar lastw) * 100

/-- Lines 175-184, `calcular_graham_value`: `√(22.5 × LPA × VPA)` when both
are strictly positive, else 0.0. Over `ℝ` the square root of a nonnegative
number is always defined, finite and nonnegative, so the `isnan`/`isfinite`
fallback of line 181 never fires on the modelled domain and the `try` can
never be left through the `except`. -/
noncomputable def calcular_graham_value (lpa vpa : ℚ) : ℝ :=
  if 0 < lpa ∧ 0 < vpa then Real.sqrt (22.5 * (lpa : ℝ) * (vpa : ℝ)) else 0

/-! ## Field extraction and derivations inside the fetcher -/

/-- Lines 252-261, `safe_get`: missing/None collapses to the default, a
finite float is scaled by the multiplier (a finite rational times a finite
rational stays finite), anything non-finite or unconvertible collapses to
the default. -/
def safe_get (field : Option RawVal) (default multiplier : ℚ) : ℚ :=
  match field with
  | none => default
  | some (.num q) => q * multiplier
  | some .nonfinite => default
  | some .invalid => default

/-- Lines 264-265: dividend-yield scale adjustment. -/
def ajusteDY (dy_raw : ℚ) : ℚ :=
  if 0 < dy_raw ∧ dy_raw < 1 then dy_raw * 100 else dy_raw

/-- Lines 276-283, the "Correções matemáticas" block: sequential cross
derivation of P/L ↔ LPA and P/VP ↔ VPA. Returns `(pl, pvp, lpa, vpa)`
after the four `if` statements ran in source order (the third and fourth
read the values already updated by the first and second). -/
def corrigirValuation (preco pl pvp lpa vpa : ℚ) : ℚ × ℚ × ℚ × ℚ :=
  let pl2 := if pl = 0 ∧ 0 < lpa then preco / lpa else pl
  let pvp2 := if pvp = 0 ∧ 0 < vpa then preco / vpa else pvp
  let lpa2 := if lpa = 0 ∧ 0 < pl2 then preco / pl2 else lpa
  let vpa2 := if vpa = 0 ∧ 0 < pvp2 then preco / pvp2 else vpa
  (pl2, pvp2, lpa2, vpa2)

/-- Lines 299-311: the fixed sector lookup table, as an association list
mirroring the `setor_map` dict. -/
def setor_map : List (String × String) :=
  [("Financial Services", "Financeiro"),
   ("Basic Materials", "Materiais Básicos"),
   ("Energy", "Energia"),
   ("Utilities", "Utilidades Públicas"),
   ("Industrials", "Industrial"),
   ("Consumer Cyclical", "Consumo Cíclico"),
   ("Consumer Defensive", "Consumo Não Cíclico"),
   ("Technology", "Tecnologia"),
   ("Healthcare", "Saúde"),
   ("Real Estate", "Imobiliário"),
   ("Communication Services", "Comunicação")]

/-- Lines 298-312: `setor_raw = info.get('sector', 'N/A')` followed by
`setor_map.get(setor_raw, setor_raw if setor_raw else 'Outros')`.
A missing key defaults to the string `'N/A'`; a key holding Python `None`
or `''` is falsy, so the dict-get default evaluates to `'Outros'`; any
other unmapped string passes through unchanged. -/
def resolveSetor (sectorField : Option (Option String)) : String :=
  match (match sectorField with | none => some "N/A" | some v => v) with
  | none => "Outros"
  | some s =>
      match setor_map.lookup s with
      | some m => m
      | none => if s = "" then "Outros" else s

/-! ## Quality-score rubric (lines 321-362) -/

/-- ROE component (30 points max). -/
def pontosROE (roe : ℚ) : ℚ :=
  if roe ≥ 20 then 30 else if roe ≥ 15 then 25 else if roe ≥ 10 then 15
  else if roe ≥ 5 then 5 else 0

/-- P/L component (25 points max); the chained comparison `0 < pl <= 10`
is the conjunction. -/
def pontosPL (pl : ℚ) : ℚ :=
  if 0 < pl ∧ pl ≤ 10 then 25 else if 10 < pl ∧ pl ≤ 15 then 20
  else if 15 < pl ∧ pl ≤ 20 then 10 else 0

/-- Net-margin component (20 points max). -/
def pontosMargem (m : ℚ) : ℚ :=
  if m ≥ 20 then 20 else if m ≥ 10 then 15 else if m ≥ 5 then 10 else 0

/-- Dividend-yield component (15 points max). -/
def pontosDY (dy : ℚ) : ℚ :=
  if dy ≥ 8 then 15 else if dy ≥ 5 then 12 else if dy ≥ 3 then 8 else 0

/-- Current-ratio component (10 points max). -/
def pontosLiquidez (l : ℚ) : ℚ :=
  if l ≥ 1.5 then 10 else if l ≥ 1.0 then 5 else 0

/-- Lines 321-362: the quality score, the five components summed in source
order. -/
def pontuacao (roe pl margem_liq dividend_yield liquidez_corr : ℚ) : ℚ :=
  pontosROE roe + pontosPL pl + pontosMargem margem_liq
    + pontosDY dividend_yield + pontosLiquidez liquidez_corr

/-! ## The per-symbol result record -/

/-- The `dados` dict compiled at lines 365-388, field per key. -/
structure Dados where
  acao : String            -- "Ação"
  preco : ℚ                -- "Preço"
  dyPct : ℚ                -- "DY %"
  lpa : ℚ                  -- "LPA"
  vpa : ℚ                  -- "VPA"
  vGraham : ℝ              -- "V. Graham"
  roe : ℚ                  -- "ROE"
  margemLiq : ℚ            -- "Margem_Liq"
  margemBruta : ℚ          -- "Margem_Bruta"
  liquidezCorr : ℚ         -- "Liquidez_Corr"
  pl : ℚ                   -- "P/L"
  pvp : ℚ                  -- "P/VP"
  dividaPl : ℚ             -- "Divida/PL"
  volumeMedio : ℤ          -- "Volume_Medio"
  rsi : ℚ                  -- "RSI"
  volatilidade : ℝ         -- "Volatilidade"
  score : ℚ                -- "Score"
  setor : String           -- "Setor"
  divAnual : ℚ             -- "Div_Anual"
  margemSegGraham : ℝ      -- "Margem_Seg_Graham"

/-- Lines 242-390, the success path of the fetcher once the price is
positive and `info` is a non-empty dict: field extraction, derivations,
technical metrics, score and the compiled record. -/
noncomputable def montarDados (env : YfEnv) (ticker_clean : String)
    (info : Info) (preco_atual : ℚ) : Dados :=
  let hist_precos : List ℚ := match env.hist3mo with
    | .ok cs => cs
    | .error _ => []
  let dy_raw := safe_get info.dividendYield 0 1
  let dividend_yield := ajusteDY dy_raw
  let lpa0 := safe_get info.trailingEps 0 1
  let vpa0 := safe_get info.bookValue 0 1
  let pl0 := safe_get info.trailingPE 0 1
  let pvp0 := safe_get info.priceToBook 0 1
  let v := corrigirValuation preco_atual pl0 pvp0 lpa0 vpa0
  let pl := v.1
  let pvp := v.2.1
  let lpa := v.2.2.1
  let vpa := v.2.2.2
  let roe := safe_get info.returnOnEquity 0 100
  let margem_liq := safe_get info.profitMargins 0 100
  let margem_bruta := safe_get info.grossMargins 0 100
  let liquidez_corr := safe_get info.liquidezCorr 0 1
  let divida_patrimonio := safe_get info.debtToEquity 0 1
  let volume_medio := safe_get info.averageVolume 0 1
  let setor := resolveSetor info.sector
  let rsi := if hist_precos.isEmpty then 50 else calcular_rsi hist_precos 14
  let volatilidade := if hist_precos.isEmpty then 0 else calcular_volatilidade hist_precos 30
  let graham_value := calcular_graham_value lpa vpa
  let score := pontuacao roe pl margem_liq dividend_yield liquidez_corr
  let precoR := pyRound 2 preco_atual
  let dyR := pyRound 2 dividend_yield
  { acao := ticker_clean
    preco := precoR
    dyPct := dyR
    lpa := pyRound 2 lpa
    vpa := pyRound 2 vpa
    vGraham := pyRound2R graham_value
    roe := pyRound 2 roe
    margemLiq := pyRound 2 margem_liq
    margemBruta := pyRound 2 margem_bruta
    liquidezCorr := pyRound 2 liquidez_corr
    pl := pyRound 2 pl
    pvp := pyRound 2 pvp
    dividaPl := pyRound 2 divida_patrimonio
    volumeMedio := pyInt volume_medio
    rsi := pyRound 1 rsi
    volatilidade := pyRound2R volatilidade
    score := pyRound 1 score
    setor := setor
    divAnual := pyRound 2 (precoR * (dyR / 100))
    margemSegGraham :=
      if 0 < graham_value
      then pyRound1R ((graham_value - (preco_atual : ℝ)) / (preco_atual : ℝ) * 100)
      else 0 }

/-- Lines 209-231, price resolution with fallback: `fast_info`'s
`last_price` is used when present and strictly positive (the Python
truthiness test `last_price and last_price > 0`); otherwise the last
closing price of a 5-day history, when that call succeeds on a nonempty
frame; otherwise the price stays 0.0. -/
def resolverPreco (env : YfEnv) : ℚ :=
  let preco0 : ℚ := match env.fastInfo with
    | .ok (some p) => if 0 < p then p else 0
    | _ => 0
  if preco0 ≤ 0 then
    match env.hist5d with
    | .ok cs =>
      match cs.getLast? with
      | some c => c
      | none => preco0
    | .error _ => preco0
  else preco0

/-- Lines 197-393, `get_yahoo_data_enhanced`: the whole fetcher. It returns
the Python pair `(dados, erro)`: exactly one side is present at every
return statement, and every raise is caught (inner handlers or the
outermost `except`, which truncates `str(e)` to the first 50 characters
after the `"<ticker>: "` prefix). -/
noncomputable def get_yahoo_data_enhanced (env : YfEnv) (ticker : String) :
    Option Dados × Option String :=
  let ticker_clean := tickerClean ticker
  match env.outerExn with
  | some e => (none, some (ticker_clean ++ ": " ++ strTake 50 e))
  | none =>
    let preco_atual := resolverPreco env
    if preco_atual ≤ 0 then (none, some (ticker_clean ++ ": " ++ "Preço não disponível"))
    else
      match env.infoRes with
      | .error _ => (none, some (ticker_clean ++ ": " ++ "Erro ao obter fundamentos"))
      | .ok none => (none, some (ticker_clean ++ ": " ++ "Informações vazias"))
      | .ok (some info) => (some (montarDados env ticker_clean info preco_atual), none)

/-! ## Batch orchestration and the module-level flow -/

/-- Lines 395-417, `processar_em_paralelo`, with the provider behaviour per
ticker given by `envOf`: every ticker is fetched and contributes to exactly
one of the two lists. Completion order is nondeterministic in the real
thread pool; input order is one linearisation and the claims below only
depend on the multiset of outcomes. -/
noncomputable def processar_em_paralelo (envOf : String → YfEnv)
    (tickers : List String) : List Dados × List String :=
  tickers.foldr
    (fun t acc =>
      match get_yahoo_data_enhanced (envOf t) t with
      | (some d, _) => (d :: acc.1, acc.2)
      | (none, some e) => (acc.1, e :: acc.2)
      | (none, none) => acc)
    ([], [])

/-- Outcome of one page run: either the script was halted by `st.stop()`
at line 513, or the analysis was not triggered, or the batch ran and
produced its collected data and errors. -/
inductive AppOutcome
  /-- `st.stop()` was reached: nothing below line 513 runs. -/
  | stopped
  /-- The probe passed but no analysis was triggered (button not pressed
  or empty ticker list). -/
  | noRun
  /-- The batch ran over the whole ticker list. -/
  | ran (results : List Dados × List String)

/-- Lines 510-561: the connectivity gate followed by the processing block.
`check_yfinance_connection()` returning `False` reaches `st.stop()`
(line 513) before the analysis button is even rendered; otherwise, when
the button was pressed and the ticker list is nonempty, every ticker is
processed (the parallel and the sequential path both iterate over the full
list; `probeOk` abstracts the probe's result, `envOf` the provider). -/
noncomputable def appFlow (probeOk analisar : Bool) (envOf : String → YfEnv)
    (tickers : List String) : AppOutcome :=
  if probeOk = false then .stopped
  else if analisar = true ∧ tickers ≠ [] then .ran (processar_em_paralelo envOf tickers)
  else .noRun

/-- The symbols whose fetch outcomes an `AppOutcome` holds: each fetched
symbol lands in exactly one list, so the count of attempted symbols is the
sum of the two lengths. -/
def totalOutcomes : AppOutcome → Nat
  | .stopped => 0
  | .noRun => 0
  | .ran (ds, es) => ds.length + es.length

/-! ## Screener (lines 579-591) -/

/-- The six sidebar thresholds the filter block reads. -/
structure Filtros where
  minDy : ℚ
  minRoe : ℚ
  maxPl : ℚ
  maxPvp : ℚ
  maxDivida : ℚ
  minScore : ℚ

/-- Lines 579-588: the conjunction of the eight column conditions building
`df_filtrado`. -/
def passaFiltros (f : Filtros) (d : Dados) : Bool :=
  decide (f.minDy ≤ d.dyPct) && decide (f.minRoe ≤ d.roe)
    && decide (0 < d.pl) && decide (d.pl ≤ f.maxPl)
    && decide (0 < d.pvp) && decide (d.pvp ≤ f.maxPvp)
    && decide (d.dividaPl ≤ f.maxDivida) && decide (f.minScore ≤ d.score)

/-- Lines 579-591: the filter block. The row mask keeps input order; the
sector equality is applied on top only when the selected sector is not
`"Todos"`. -/
def aplicarFiltros (f : Filtros) (setorSel : String) (rows : List Dados) :
    List Dados :=
  let df := rows.filter (passaFiltros f)
  if setorSel = "Todos" then df else df.filter fun d => d.setor == setorSel

/-! ## Concrete provider behaviours used by witnesses and counterexamples -/

/-- A realistic unclassified exception text, longer than 50 characters. -/
def excMsg : String :=
  "HTTPSConnectionPool(host='query1.finance.yahoo.com', port=443): Read timed out."

/-- A provider for which every call raises: the fetch aborts into the
outermost handler carrying `excMsg`. -/
def envFalha : YfEnv :=
  { outerExn := some excMsg
    fastInfo := .error ()
    hist5d := .error ()
    infoRes := .error ()
    hist3mo := .error () }

/-- A concrete collected record (the spec's §8 scenario: price 30, LPA 3,
VPA 15, ROE 22, derived P/L 10, net margin 18, DY 9 %, current ratio 1.6,
score 95). -/
noncomputable def dadosW : Dados :=
  { acao := "AAA", preco := 30, dyPct := 9, lpa := 3, vpa := 15, vGraham := 0
    roe := 22, margemLiq := 18, margemBruta := 40, liquidezCorr := 8 / 5
    pl := 10, pvp := 2, dividaPl := 1, volumeMedio := 1000000, rsi := 50
    volatilidade := 0, score := 95, setor := "Energia", divAnual := 27 / 10
    margemSegGraham := 0 }

/-- A concrete sidebar threshold setting (the defaults, with P/VP max
raised to 3). -/
def filtrosW : Filtros :=
  { minDy := 4, minRoe := 10, maxPl := 20, maxPvp := 3, maxDivida := 2
    minScore := 40 }

/-! # Theorems -/

/-! ## Helper lemmas on the score components -/

theorem pontosROE_mono {a b : ℚ} (h : a ≤ b) : pontosROE a ≤ pontosROE b := by
  unfold pontosROE; split_ifs <;> linarith

theorem pontosROE_bounds (a : ℚ) : 0 ≤ pontosROE a ∧ pontosROE a ≤ 30 := by
  unfold pontosROE; split_ifs <;> norm_num

theorem pontosMargem_mono {a b : ℚ} (h : a ≤ b) : pontosMargem a ≤ pontosMargem b := by
  unfold pontosMargem; split_ifs <;> linarith

theorem pontosMargem_bounds (a : ℚ) : 0 ≤ pontosMargem a ∧ pontosMargem a ≤ 20 := by
  unfold pontosMargem; split_ifs <;> norm_num

theorem pontosDY_mono {a b : ℚ} (h : a ≤ b) : pontosDY a ≤ pontosDY b := by
  unfold pontosDY; split_ifs <;> linarith

theorem pontosDY_bounds (a : ℚ) : 0 ≤ pontosDY a ∧ pontosDY a ≤ 15 := by
  unfold pontosDY; split_ifs <;> norm_num

theorem pontosLiquidez_mono {a b : ℚ} (h : a ≤ b) : pontosLiquidez a ≤ pontosLiquidez b := by
  unfold pontosLiquidez; split_ifs <;> linarith

theorem pontosLiquidez_bounds (a : ℚ) : 0 ≤ pontosLiquidez a ∧ pontosLiquidez a ≤ 10 := by
  unfold pontosLiquidez; split_ifs <;> norm_num

theorem pontosPL_of_le10 {p : ℚ} (h0 : 0 < p) (h : p ≤ 10) : pontosPL p = 25 := by
  unfold pontosPL; rw [if_pos ⟨h0, h⟩]

theorem pontosPL_of_le15 {p : ℚ} (h0 : 10 < p) (h : p ≤ 15) : pontosPL p = 20 := by
  unfold pontosPL
  rw [if_neg (by rintro ⟨a, b⟩; linarith), if_pos ⟨h0, h⟩]

theorem pontosPL_of_le20 {p : ℚ} (h0 : 15 < p) (h : p ≤ 20) : pontosPL p = 10 := by
  unfold pontosPL
  rw [if_neg (by rintro ⟨a, b⟩; linarith), if_neg (by rintro ⟨a, b⟩; linarith),
    if_pos ⟨h0, h⟩]

theorem pontosPL_of_gt20 {p : ℚ} (h : 20 < p) : pontosPL p = 0 := by
  unfold pontosPL
  rw [if_neg (by rintro ⟨a, b⟩; linarith), if_neg (by rintro ⟨a, b⟩; linarith),
    if_neg (by rintro ⟨a, b⟩; linarith)]

theorem pontosPL_bounds (p : ℚ) : 0 ≤ pontosPL p ∧ pontosPL p ≤ 25 := by
  unfold pontosPL; split_ifs <;> norm_num

/-- The P/L component is antitone on the strictly positive half-line: a
larger (positive) P/L never scores more. -/
theorem pontosPL_anti {a b : ℚ} (ha : 0 < a) (hab : a ≤ b) :
    pontosPL b ≤ pontosPL a := by
  rcases le_or_lt a 10 with h10 | h10
  · rw [pontosPL_of_le10 ha h10]; exact (pontosPL_bounds b).2
  · rcases le_or_lt a 15 with h15 | h15
    · rw [pontosPL_of_le15 h10 h15]
      rcases le_or_lt b 15 with hb | hb
      · rw [pontosPL_of_le15 (lt_of_lt_of_le h10 hab) hb]
      · rcases le_or_lt b 20 with hb2 | hb2
        · rw [pontosPL_of_le20 hb hb2]; norm_num
        · rw [pontosPL_of_gt20 hb2]; norm_num
    · rcases le_or_lt a 20 with h20 | h20
      · rw [pontosPL_of_le20 h15 h20]
        rcases le_or_lt b 20 with hb | hb
        · rw [pontosPL_of_le20 (lt_of_lt_of_le h15 hab) hb]
        · rw [pontosPL_of_gt20 hb]; norm_num
      · rw [pontosPL_of_gt20 h20, pontosPL_of_gt20 (lt_of_lt_of_le h20 hab)]

/-! ## C7 — intrinsic value -/

/-- C7: `calcular_graham_value` returns 0.0 whenever `eps ≤ 0` or `bv ≤ 0`,
and otherwise returns `√(22.5 · eps · bv)`. Over the modelled domain the
square root of a nonnegative real is always defined, finite and
nonnegative, so the code's non-finite fallback (line 181) never fires and
the function is total — it never raises. Concretely,
`calcular_graham_value 2 5 = √225 = 15`. -/
theorem claim7_graham_value (lpa vpa : ℚ) :
    (lpa ≤ 0 ∨ vpa ≤ 0 → calcular_graham_value lpa vpa = 0) ∧
    (0 < lpa ∧ 0 < vpa →
      calcular_graham_value lpa vpa = Real.sqrt (22.5 * (lpa : ℝ) * (vpa : ℝ))) ∧
    0 ≤ calcular_graham_value lpa vpa ∧
    calcular_graham_value 2 5 = 15 := by
  unfold calcular_graham_value
  refine ⟨?_, ?_, ?_, ?_⟩
  · intro h
    rw [if_neg]
    rintro ⟨h1, h2⟩
    rcases h with h | h <;> linarith
  · intro h
    rw [if_pos h]
  · split
    · exact Real.sqrt_nonneg _
    · exact le_refl 0
  · rw [if_pos (by norm_num)]
    have h225 : 22.5 * ((2 : ℚ) : ℝ) * ((5 : ℚ) : ℝ) = 15 ^ 2 := by push_cast; norm_num
    rw [h225, Real.sqrt_sq (by norm_num : (0 : ℝ) ≤ 15)]

/-! ## C6 — dividend-yield normalization -/

/-- C6: the raw dividend yield is scaled by 100 exactly when it lies
strictly between 0 and 1, and is left unchanged otherwise; in particular
0.05 ↦ 5.0, 5.0 ↦ 5.0 and 0 ↦ 0 (lines 264-265). -/
theorem claim6_dividend_yield_norm (dy : ℚ) :
    (0 < dy ∧ dy < 1 → ajusteDY dy = dy * 100) ∧
    (¬(0 < dy ∧ dy < 1) → ajusteDY dy = dy) ∧
    ajusteDY (5 / 100) = 5 ∧ ajusteDY 5 = 5 ∧ ajusteDY 0 = 0 := by
  unfold ajusteDY
  refine ⟨fun h => if_pos h, fun h => if_neg h, by norm_num, by norm_num, by norm_num⟩

/-! ## C5 — cross derivation of P/L, P/VP, LPA, VPA -/

/-- C5: the correction block (lines 276-283) recomputes P/L as
price ÷ LPA exactly when P/L is zero and LPA positive, symmetrically for
P/VP versus VPA, and then (reading the already-updated ratios, in source
order) recovers LPA from P/L and VPA from P/VP when those are zero; the
spec's two examples hold: price 100, P/L 0, LPA 10 derives P/L = 10, and
price 50, P/VP 0, VPA 25 derives P/VP = 2. -/
theorem claim5_cross_derivation (preco pl pvp lpa vpa : ℚ) :
    ((corrigirValuation preco pl pvp lpa vpa).1
      = if pl = 0 ∧ 0 < lpa then preco / lpa else pl) ∧
    ((corrigirValuation preco pl pvp lpa vpa).2.1
      = if pvp = 0 ∧ 0 < vpa then preco / vpa else pvp) ∧
    ((corrigirValuation preco pl pvp lpa vpa).2.2.1
      = if lpa = 0 ∧ 0 < (corrigirValuation preco pl pvp lpa vpa).1
        then preco / (corrigirValuation preco pl pvp lpa vpa).1 else lpa) ∧
    ((corrigirValuation preco pl pvp lpa vpa).2.2.2
      = if vpa = 0 ∧ 0 < (corrigirValuation preco pl pvp lpa vpa).2.1
        then preco / (corrigirValuation preco pl pvp lpa vpa).2.1 else vpa) ∧
    (corrigirValuation 100 0 0 10 0).1 = 10 ∧
    (corrigirValuation 50 0 0 0 25).2.1 = 2 := by
  refine ⟨rfl, rfl, rfl, rfl, ?_, ?_⟩ <;> norm_num [corrigirValuation]

/-! ## C3 — sector resolution -/

/-- C3 counterexample: a fundamentals record with no sector key resolves to
`"N/A"` — the default `info.get('sector', 'N/A')` supplies, which is
non-empty and passes through the lookup unchanged — not to `"Outros"` as
the claim states for a missing field. -/
theorem claim3_missing_sector_cx :
    resolveSetor none = "N/A" ∧ resolveSetor none ≠ "Outros" := by
  exact ⟨rfl, by decide⟩

/-- C3 amended: a raw sector string in the fixed table maps through it; a
non-empty unmapped string passes through unchanged; a sector key holding
Python `None` or the empty string maps to `"Outros"`; a missing sector key
defaults to `"N/A"`, which passes through unchanged (lines 298-312). -/
theorem claim3_sector_resolution (s : String) :
    (∀ m, setor_map.lookup s = some m → resolveSetor (some (some s)) = m) ∧
    (setor_map.lookup s = none → s ≠ "" → resolveSetor (some (some s)) = s) ∧
    resolveSetor (some none) = "Outros" ∧
    resolveSetor (some (some "")) = "Outros" ∧
    resolveSetor none = "N/A" := by
  refine ⟨?_, ?_, rfl, by decide, rfl⟩
  · intro m hm
    simp only [resolveSetor, hm]
  · intro h hne
    simp only [resolveSetor, h]
    rw [if_neg hne]

/-! ## C2 — quality-score monotonicity and bounds -/

/-- C2 counterexample: the score is not monotone non-decreasing in the
price/earnings input. With the other four inputs fixed at 0, raising P/L
from 5 to 12 drops the score from 25 to 20 (the P/L rubric rewards LOW
ratios: `0 < pl ≤ 10` scores 25, `10 < pl ≤ 15` scores 20). -/
theorem claim2_pl_not_monotone_cx :
    (5 : ℚ) ≤ 12 ∧ ¬ pontuacao 0 5 0 0 0 ≤ pontuacao 0 12 0 0 0 := by
  norm_num [pontuacao, pontosROE, pontosPL, pontosMargem, pontosDY, pontosLiquidez]

/-- C2 amended: the quality score is monotone non-decreasing in return on
equity, net margin, dividend yield and current ratio individually; in
price/earnings it is instead monotone NON-INCREASING on the strictly
positive half-line (lower P/L never scores less); and the total always
lies in [0, 100]. -/
theorem claim2_score_monotone_bounds
    (roe pl m dy liq roe2 pl2 m2 dy2 liq2 : ℚ) :
    (roe ≤ roe2 → pontuacao roe pl m dy liq ≤ pontuacao roe2 pl m dy liq) ∧
    (m ≤ m2 → pontuacao roe pl m dy liq ≤ pontuacao roe pl m2 dy liq) ∧
    (dy ≤ dy2 → pontuacao roe pl m dy liq ≤ pontuacao roe pl m dy2 liq) ∧
    (liq ≤ liq2 → pontuacao roe pl m dy liq ≤ pontuacao roe pl m dy liq2) ∧
    (0 < pl → pl ≤ pl2 → pontuacao roe pl2 m dy liq ≤ pontuacao roe pl m dy liq) ∧
    0 ≤ pontuacao roe pl m dy liq ∧ pontuacao roe pl m dy liq ≤ 100 := by
  unfold pontuacao
  obtain ⟨r0, r30⟩ := pontosROE_bounds roe
  obtain ⟨p0, p25⟩ := pontosPL_bounds pl
  obtain ⟨m0, m20⟩ := pontosMargem_bounds m
  obtain ⟨d0, d15⟩ := pontosDY_bounds dy
  obtain ⟨l0, l10⟩ := pontosLiquidez_bounds liq
  refine ⟨?_, ?_, ?_, ?_, ?_, by linarith, by linarith⟩
  · intro h; have := pontosROE_mono h; linarith
  · intro h; have := pontosMargem_mono h; linarith
  · intro h; have := pontosDY_mono h; linarith
  · intro h; have := pontosLiquidez_mono h; linarith
  · intro h0 h; have := pontosPL_anti h0 h; linarith

/-! ## C8 — the filter block -/

/-- C8: a record is kept by the filter block (lines 579-591) exactly when
it belongs to the collected rows and satisfies all eight threshold
conditions — DY ≥ min, ROE ≥ min, 0 < P/L ≤ max, 0 < P/VP ≤ max,
debt/equity ≤ max, score ≥ min — plus sector equality whenever the
selected sector differs from `"Todos"`. -/
theorem claim8_filter_membership (f : Filtros) (s : String)
    (rows : List Dados) (d : Dados) :
    d ∈ aplicarFiltros f s rows ↔
      d ∈ rows ∧ f.minDy ≤ d.dyPct ∧ f.minRoe ≤ d.roe ∧
        0 < d.pl ∧ d.pl ≤ f.maxPl ∧ 0 < d.pvp ∧ d.pvp ≤ f.maxPvp ∧
        d.dividaPl ≤ f.maxDivida ∧ f.minScore ≤ d.score ∧
        (s ≠ "Todos" → d.setor = s) := by
  unfold aplicarFiltros passaFiltros
  by_cases hs : s = "Todos"
  · subst hs
    simp [List.mem_filter, and_assoc]
  · simp [hs, List.mem_filter, and_assoc]
    tauto

/-! ## Helper lemmas on the fetcher -/

/-- Every path through the fetcher returns exactly one of a record and an
error message (the Python function has five return statements: four
`(None, msg)` and one `(dados, None)`). -/
theorem fetch_exactly_one (env : YfEnv) (t : String) :
    (∃ d, get_yahoo_data_enhanced env t = (some d, none)) ∨
    (∃ m, get_yahoo_data_enhanced env t = (none, some m)) := by
  unfold get_yahoo_data_enhanced
  rcases env with ⟨oe, fi, h5, ir, h3⟩
  cases oe with
  | some e => right; exact ⟨_, rfl⟩
  | none =>
    dsimp only
    split
    · right; exact ⟨_, rfl⟩
    · cases ir with
      | error e => right; exact ⟨_, rfl⟩
      | ok oi =>
        cases oi with
        | none => right; exact ⟨_, rfl⟩
        | some info => left; exact ⟨_, rfl⟩

/-- The batch produces one outcome per ticker: the lengths of the two
result lists sum to the length of the ticker list. -/
theorem processar_total (envOf : String → YfEnv) (tickers : List String) :
    (processar_em_paralelo envOf tickers).1.length
      + (processar_em_paralelo envOf tickers).2.length = tickers.length := by
  induction tickers with
  | nil => rfl
  | cons t ts ih =>
    unfold processar_em_paralelo at ih ⊢
    dsimp only [List.foldr]
    rcases fetch_exactly_one (envOf t) t with ⟨d, hd⟩ | ⟨m, hm⟩
    · rw [hd]; dsimp only [List.length_cons]; omega
    · rw [hm]; dsimp only [List.length_cons]; omega

/-- The "Ação" field of a returned record is always the cleaned input
symbol (line 366). -/
theorem fetch_acao_eq (env : YfEnv) (t : String) :
    ∀ d, (get_yahoo_data_enhanced env t).1 = some d → d.acao = tickerClean t := by
  unfold get_yahoo_data_enhanced
  rcases env with ⟨oe, fi, h5, ir, h3⟩
  cases oe with
  | some e => intro d hd; simp at hd
  | none =>
    dsimp only
    split
    · intro d hd; simp at hd
    · cases ir with
      | error e => intro d hd; simp at hd
      | ok oi =>
        cases oi with
        | none => intro d hd; simp at hd
        | some info =>
          intro d hd
          simp only [Option.some.injEq] at hd
          rw [← hd]
          rfl

/-- Every failure message the fetcher returns starts with the cleaned
input symbol followed by `": "` (all four error returns interpolate
`ticker_clean` first). -/
theorem fetch_msg_shape (env : YfEnv) (t : String) :
    ∀ m, (get_yahoo_data_enhanced env t).2 = some m →
      ∃ rest, m = tickerClean t ++ ": " ++ rest := by
  unfold get_yahoo_data_enhanced
  rcases env with ⟨oe, fi, h5, ir, h3⟩
  cases oe with
  | some e =>
    intro m hm
    simp only [Option.some.injEq] at hm
    exact ⟨_, hm.symm⟩
  | none =>
    dsimp only
    split
    · intro m hm
      simp only [Option.some.injEq] at hm
      exact ⟨_, hm.symm⟩
    · cases ir with
      | error e =>
        intro m hm
        simp only [Option.some.injEq] at hm
        exact ⟨_, hm.symm⟩
      | ok oi =>
        cases oi with
        | none =>
          intro m hm
          simp only [Option.some.injEq] at hm
          exact ⟨_, hm.symm⟩
        | some info => intro m hm; simp at hm

/-! ## C1 — fetcher totality, exclusivity and truncation -/

/-- C1: for every provider behaviour and every input symbol the fetcher
returns exactly one of a result record and a failure message — never both,
never neither — and, being total over every modelled behaviour (including
every raising one), it never propagates an exception to its caller; when
an unclassified exception with text `e` occurs, the returned failure
message is exactly the cleaned symbol, `": "`, and the first 50 characters
of `e`. -/
theorem claim1_fetcher_contract (env : YfEnv) (t : String) :
    ((∃ d, get_yahoo_data_enhanced env t = (some d, none)) ∨
      (∃ m, get_yahoo_data_enhanced env t = (none, some m))) ∧
    (∀ e, env.outerExn = some e →
      get_yahoo_data_enhanced env t
        = (none, some (tickerClean t ++ ": " ++ strTake 50 e))) := by
  refine ⟨fetch_exactly_one env t, ?_⟩
  intro e he
  unfold get_yahoo_data_enhanced
  rw [he]

/-- C1 witness: a provider raising a long exception (`excMsg`, 80
characters) makes the fetch of `"  petr4.sa "` return no record and the
failure message `"PETR4: "` followed by the first 50 characters of the
exception text. -/
theorem claim1_fetcher_contract_witness :
    get_yahoo_data_enhanced envFalha "  petr4.sa "
        = (none, some (tickerClean "  petr4.sa " ++ ": " ++ strTake 50 excMsg)) ∧
    tickerClean "  petr4.sa " = "PETR4" ∧ 50 < excMsg.length := by
  refine ⟨(claim1_fetcher_contract envFalha "  petr4.sa ").2 excMsg rfl, by decide, by decide⟩

/-! ## C10 — symbol-code normalisation -/

/-- C10: the symbol stored in a returned record ("Ação"), and the symbol
prefix of every returned failure message, is the input stripped of
surrounding whitespace, uppercased, with every `.SA` occurrence removed
(line 203); `"  petr4.sa "` and `"PETR4"` normalise to the same code. -/
theorem claim10_symbol_normalisation (env : YfEnv) (t : String) :
    (∀ d, (get_yahoo_data_enhanced env t).1 = some d → d.acao = tickerClean t) ∧
    (∀ m, (get_yahoo_data_enhanced env t).2 = some m →
      ∃ rest, m = tickerClean t ++ ": " ++ rest) ∧
    tickerClean "  petr4.sa " = "PETR4" ∧ tickerClean "PETR4" = "PETR4" :=
  ⟨fetch_acao_eq env t, fetch_msg_shape env t, by decide, by decide⟩

/-! ## C9 — the connectivity probe gates the batch -/

/-- C9 counterexample: with the probe failing, the run stops at `st.stop()`
(line 513) and zero symbols are attempted, although one symbol
(`"PETR4"`) was listed — the batch does not "still attempt every symbol". -/
theorem claim9_probe_blocks_cx :
    appFlow false true (fun _ => envFalha) ["PETR4"] = .stopped ∧
    totalOutcomes (appFlow false true (fun _ => envFalha) ["PETR4"]) = 0 ∧
    totalOutcomes (appFlow false true (fun _ => envFalha) ["PETR4"]) ≠
      (["PETR4"] : List String).length := by
  exact ⟨rfl, rfl, by decide⟩

/-- C9 amended: a failed reachability probe halts the script before the
batch — no symbol is attempted; only when the probe succeeds does the
triggered batch run, and then it attempts every symbol in the input list
(one fetch outcome per listed symbol). -/
theorem claim9_probe_gates_batch (envOf : String → YfEnv) (tickers : List String) :
    appFlow false true envOf tickers = .stopped ∧
    totalOutcomes (appFlow false true envOf tickers) = 0 ∧
    (tickers ≠ [] →
      appFlow true true envOf tickers = .ran (processar_em_paralelo envOf tickers) ∧
      totalOutcomes (appFlow true true envOf tickers) = tickers.length) := by
  refine ⟨rfl, rfl, ?_⟩
  intro h
  have hr : appFlow true true envOf tickers = .ran (processar_em_paralelo envOf tickers) := by
    unfold appFlow
    rw [if_neg (by simp), if_pos ⟨rfl, h⟩]
  refine ⟨hr, ?_⟩
  rw [hr]
  exact processar_total envOf tickers

/-! ## Witness instances -/

/-- C2 witness: on the spec's §8 scenario inputs the score is 95, and the
theorem's bound and anti-monotonicity parts hold there concretely. -/
theorem claim2_score_monotone_bounds_witness :
    pontuacao 22 10 18 9 (8 / 5) = 95 ∧
    pontuacao 22 10 18 9 (8 / 5) ≤ 100 ∧
    pontuacao 22 12 18 9 (8 / 5) ≤ pontuacao 22 10 18 9 (8 / 5) := by
  refine ⟨?_, (claim2_score_monotone_bounds 22 10 18 9 (8 / 5) 22 12 18 9 (8 / 5)).2.2.2.2.2.2,
    (claim2_score_monotone_bounds 22 10 18 9 (8 / 5) 22 12 18 9 (8 / 5)).2.2.2.2.1
      (by norm_num) (by norm_num)⟩
  norm_num [pontuacao, pontosROE, pontosPL, pontosMargem, pontosDY, pontosLiquidez]

/-- C3 witness: a mapped sector translates and an unmapped non-empty one
passes through, concretely. -/
theorem claim3_sector_resolution_witness :
    resolveSetor (some (some "Energy")) = "Energia" ∧
    resolveSetor (some (some "Conglomerates")) = "Conglomerates" := by
  exact ⟨(claim3_sector_resolution "Energy").1 "Energia" (by decide),
    (claim3_sector_resolution "Conglomerates").2.1 (by decide) (by decide)⟩

/-- C5 witness: the two spec examples, extracted at concrete inputs. -/
theorem claim5_cross_derivation_witness :
    (corrigirValuation 100 0 0 10 0).1 = 10 ∧
    (corrigirValuation 50 0 0 0 25).2.1 = 2 :=
  ⟨(claim5_cross_derivation 100 0 0 10 0).2.2.2.2.1,
   (claim5_cross_derivation 50 0 0 0 25).2.2.2.2.2⟩

/-- C6 witness: a fractional raw yield is scaled and a percent-scale raw
yield is kept, concretely. -/
theorem claim6_dividend_yield_norm_witness :
    ajusteDY (1 / 2) = 50 ∧ ajusteDY 7 = 7 := by
  refine ⟨((claim6_dividend_yield_norm (1 / 2)).1 ⟨by norm_num, by norm_num⟩).trans (by norm_num),
    (claim6_dividend_yield_norm 7).2.1 (by norm_num)⟩

/-- C7 witness: one positive-branch and one zero-branch evaluation of the
Graham formula. -/
theorem claim7_graham_value_witness :
    calcular_graham_value 2 5 = 15 ∧ calcular_graham_value (-1) 3 = 0 :=
  ⟨(claim7_graham_value 2 5).2.2.2,
   (claim7_graham_value (-1) 3).1 (Or.inl (by norm_num))⟩

/-- C8 witness: the §8 scenario record passes the default thresholds (with
P/VP max 3) under its own sector constraint, via the membership
characterisation. -/
theorem claim8_filter_membership_witness :
    dadosW ∈ aplicarFiltros filtrosW "Energia" [dadosW] := by
  refine (claim8_filter_membership filtrosW "Energia" [dadosW] dadosW).mpr
    ⟨List.mem_singleton_self _, ?_, ?_, ?_, ?_, ?_, ?_, ?_, ?_, fun _ => rfl⟩ <;>
  norm_num [dadosW, filtrosW]

/-- C9 witness for the amended statement: with a reachable provider and a
one-symbol list, the batch runs and attempts that symbol. -/
theorem claim9_probe_gates_batch_witness :
    totalOutcomes (appFlow true true (fun _ => envFalha) ["PETR4"]) = 1 :=
  ((claim9_probe_gates_batch (fun _ => envFalha) ["PETR4"]).2.2 (by decide)).2

/-- C10 witness: the fetch of `"  petr4.sa "` against the failing provider
carries a message whose prefix is the cleaned code `"PETR4"`. -/
theorem claim10_symbol_normalisation_witness :
    (∃ rest, (tickerClean "  petr4.sa " ++ ": " ++ strTake 50 excMsg)
        = tickerClean "  petr4.sa " ++ ": " ++ rest) ∧
    tickerClean "  petr4.sa " = "PETR4" := by
  refine ⟨(claim10_symbol_normalisation envFalha "  petr4.sa ").2.1 _ ?_, by decide⟩
  rfl
